import Mathlib

/-!
Verification of the document question-and-answer application: a shallow
embedding of its data model (`types.ts`), the upload/extraction pipeline,
the removal handler and the chat submission handler (the main `App`
component), and the prompt composition and answer-service client
(`services/geminiService.ts`), together with theorems settling the stated
properties of each part.
-/

namespace DocQA

/-- The `DocumentFile` record of `types.ts`: an uploaded document with its
original filename and extracted content. -/
structure DocumentFile where
  name : String
  content : String
deriving DecidableEq, Repr

/-- The sender of a chat message, the closed set of the `sender` field of
`ChatMessage` in `types.ts`. -/
inductive Sender where
  | user
  | ai
deriving DecidableEq, Repr

/-- The `ChatMessage` record of `types.ts`. -/
structure ChatMessage where
  id : String
  sender : Sender
  text : String
deriving DecidableEq, Repr

/-- The React state of the `App` component: the `documents`, `messages`,
`userInput`, `isLoading` and `error` state hooks. -/
structure AppState where
  documents : List DocumentFile
  messages : List ChatMessage
  userInput : String
  isLoading : Bool
  error : Option String
deriving DecidableEq, Repr

/-- What the extraction pipeline of `handleFileChange` observes about one
selected file: a PDF exposes its pages, each a list of text items (an item
without a `str` field is modelled as the empty string, exactly what the code
maps it to); any other file exposes the text that `FileReader.readAsText`
decodes; `corrupt` stands for a file whose read or parse step throws, which
rejects that file's promise. -/
inductive FilePayload where
  | pdfPages (pages : List (List String))
  | text (s : String)
  | corrupt
deriving DecidableEq, Repr

/-- A file chosen in the upload dialog. -/
structure UFile where
  name : String
  payload : FilePayload
deriving DecidableEq, Repr

/-- One page's text: `textContent.items.map(item => item.str).join(' ')`,
the page's items joined by a single space. -/
def pageText (items : List String) : String :=
  String.intercalate " " items

/-- The PDF loop of `handleFileChange`: starting from the empty string it
performs `fullText += pageText + '\n\n'` for every page in order, i.e. the
left fold that `String.join` performs over the terminated page texts. -/
def pdfFullText (pages : List (List String)) : String :=
  String.join (pages.map (fun items => pageText items ++ "\n\n"))

/-- One file's extraction: `some content` when the `try` block of the
file's task reaches the `if (content)` test, `none` when a step throws and
the file's promise rejects. -/
def extractContent : UFile → Option String
  | ⟨_, FilePayload.pdfPages pages⟩ => some (pdfFullText pages)
  | ⟨_, FilePayload.text s⟩ => some s
  | ⟨_, FilePayload.corrupt⟩ => none

/-- The document a file contributes to `newDocs`: nothing when its task
rejects, and nothing when the extracted content is the empty string (the
`if (content)` test, an empty string being falsy); otherwise the document
named by the file carrying the extracted content. -/
def fileDoc (f : UFile) : Option DocumentFile :=
  match extractContent f with
  | some c => if c = "" then none else some ⟨f.name, c⟩
  | none => none

/-- The `newDocs` array after every task of the batch settles. Each task
pushes its document when its own awaits finish, so the array lists the
documents in task-completion order; `order` is the list of file indices in
the order the tasks complete. -/
def batchDocs (files : List UFile) (order : List Nat) : List DocumentFile :=
  (order.filterMap (fun i => files[i]?)).filterMap fileDoc

/-- The message `handleFileChange` shows when reading a batch fails. -/
def readErrorMessage : String :=
  "There was an error reading one or more files. Please ensure they are valid text or PDF files."

/-- The `handleFileChange` handler: `Promise.all(readPromises)` resolves only when every
file's task resolves, and only then is `newDocs` appended to the document
state; if any task rejects, `Promise.all` rejects, nothing is appended and
the error slot is set. `order` gives the completion order of the per-file
tasks. -/
def handleFileChange (st : AppState) (files : List UFile) (order : List Nat) : AppState :=
  if files.all (fun f => (extractContent f).isSome) then
    { st with documents := st.documents ++ batchDocs files order }
  else
    { st with error := some readErrorMessage }

/-- The `removeDocument` handler: `setDocuments(docs => docs.filter(doc => doc.name !== docName))`. -/
def removeDocument (st : AppState) (docName : String) : AppState :=
  { st with documents := st.documents.filter (fun doc => doc.name != docName) }

/-- The outcome of the awaited `askAboutDocuments` call as `handleSubmit`
observes it: a resolved answer, a rejected `Error` carrying a message, or a
rejected value that is not an `Error`. -/
inductive ServiceOutcome where
  | success (answer : String)
  | failure (message : String)
  | failureNonError
deriving DecidableEq, Repr

/-- JavaScript's `String.prototype.trim`: whitespace stripped from both
ends of the string. -/
def jsTrim (s : String) : String :=
  ⟨((s.data.dropWhile Char.isWhitespace).reverse.dropWhile Char.isWhitespace).reverse⟩

/-- The message `handleSubmit` shows when no document is uploaded. -/
def uploadFirstMessage : String :=
  "Please upload at least one document before asking a question."

/-- The message `handleSubmit` shows when the rejected value is not an `Error`. -/
def unknownErrorMessage : String := "An unknown error occurred."

/-- The `handleSubmit` handler, with the two `Date.now()` readings made explicit
(`now1` when the user message is built, `now2` when the response settles
and the assistant message is built) and the awaited call's outcome as a
parameter. Returns the new state and whether `askAboutDocuments` was
invoked. -/
def handleSubmit (st : AppState) (query : String) (now1 now2 : Nat)
    (outcome : ServiceOutcome) : AppState × Bool :=
  if jsTrim query = "" ∨ st.isLoading = true then (st, false)
  else if st.documents.length = 0 then
    ({ st with error := some uploadFirstMessage }, false)
  else
    let afterSend : AppState :=
      { st with
          error := none
          messages := st.messages ++ [⟨toString now1, Sender.user, query⟩]
          isLoading := true }
    match outcome with
    | ServiceOutcome.success answer =>
        ({ afterSend with
             messages := afterSend.messages ++ [⟨toString (now2 + 1), Sender.ai, answer⟩]
             isLoading := false
             userInput := "" }, true)
    | ServiceOutcome.failure message =>
        ({ afterSend with error := some message, isLoading := false, userInput := "" }, true)
    | ServiceOutcome.failureNonError =>
        ({ afterSend with
             error := some unknownErrorMessage
             isLoading := false
             userInput := "" }, true)

/-- One submission event of a chat session: the query, the two clock
readings, and how the service call turns out. -/
structure SubmitEvent where
  query : String
  tSubmit : Nat
  tSettle : Nat
  outcome : ServiceOutcome
deriving DecidableEq, Repr

/-- A whole session: the submissions folded through `handleSubmit`. -/
def runSession (st : AppState) : List SubmitEvent → AppState
  | [] => st
  | e :: evs => runSession (handleSubmit st e.query e.tSubmit e.tSettle e.outcome).1 evs

/-- The `documentsContext` template of `askAboutDocuments`: one labelled
block per document, the blocks joined by a newline. -/
def documentsContext (documents : List DocumentFile) : String :=
  String.intercalate "\n" (documents.map (fun doc =>
    "\n---\nDocument: " ++ doc.name ++ "\nContent:\n" ++ doc.content ++ "\n---\n  "))

/-- The `userPrompt` template of `askAboutDocuments`: the document context,
a fixed instruction frame, then the literal question. -/
def userPrompt (question : String) (documents : List DocumentFile) : String :=
  "\nCONTEXT FROM DOCUMENTS:\n" ++ documentsContext documents ++
    "\n\nBased on the document(s) provided, answer the following question.\n\nUSER QUESTION:\n" ++
    question ++ "\n"

/-- How the one `generateContent` round trip turns out. -/
inductive NetOutcome where
  | ok (text : String)
  | failed
deriving DecidableEq, Repr

/-- The message of the error thrown when no credential is configured. -/
def apiKeyErrorMessage : String := "API_KEY environment variable not set"

/-- The user-safe message the service failure is re-thrown with. -/
def serviceErrorMessage : String :=
  "Failed to get a response from the AI. Please check the console for details."

/-- The `askAboutDocuments` client: the credential check (`!process.env.API_KEY`,
which fires for an unset and for an empty variable alike), then one
`generateContent` call on the composed prompt; any failure of the call is
caught and re-thrown with a generic message. The transport is a parameter;
the second component records whether it was invoked. -/
def askAboutDocuments (apiKey : Option String) (question : String)
    (documents : List DocumentFile) (net : String → NetOutcome) :
    Except String String × Bool :=
  if apiKey.getD "" = "" then (Except.error apiKeyErrorMessage, false)
  else
    match net (userPrompt question documents) with
    | NetOutcome.ok t => (Except.ok t, true)
    | NetOutcome.failed => (Except.error serviceErrorMessage, true)

/-- Predicate: `s` contains the listed strings as substrings, in the listed order:
`s` splits into the listed pieces with arbitrary filler around them. -/
def ContainsInOrder (s : String) : List String → Prop
  | [] => True
  | p :: ps => ∃ l r, s = l ++ p ++ r ∧ ContainsInOrder r ps

/-- The name and full content of each document, in document order. -/
def docKeys : List DocumentFile → List String
  | [] => []
  | d :: ds => d.name :: d.content :: docKeys ds

/-- Modelled from the spec: page texts joined by two newlines, i.e. the
separator placed strictly between consecutive pages. Named for comparison
with `pdfFullText`, which is what the code computes. -/
def pdfPagesJoinedSpec (pages : List (List String)) : String :=
  String.intercalate "\n\n" (pages.map pageText)

/-- Decimal digits of a number, most significant first: the list
`Nat.toDigitsCore` builds when its fuel does not run out. -/
def decDigits (n : Nat) : List Char :=
  if _h : n < 10 then [Nat.digitChar n]
  else decDigits (n / 10) ++ [Nat.digitChar (n % 10)]
decreasing_by exact Nat.div_lt_self (by omega) (by omega)

/-- The numeric value of a digit character. -/
def digitVal (c : Char) : Nat := c.toNat - 48

/-- The number a digit string denotes. -/
def digitsVal (l : List Char) : Nat := l.foldl (fun a c => 10 * a + digitVal c) 0

/-- An initial application state: nothing uploaded, nothing asked. -/
def stEmpty : AppState := ⟨[], [], "", false, none⟩

/-- A state ready for a submission: one document uploaded, no request
pending, no error shown. -/
def stReady : AppState := ⟨[⟨"d.txt", "x"⟩], [], "", false, none⟩

/-- A plain text file used as a concrete batch member. -/
def fileA : UFile := ⟨"a.txt", FilePayload.text "A"⟩

/-- A second plain text file used as a concrete batch member. -/
def fileB : UFile := ⟨"b.txt", FilePayload.text "B"⟩

/-- A state with a request in flight. -/
def stPending : AppState := ⟨[⟨"d.txt", "x"⟩], [], "", true, none⟩

/-- A state whose document set holds two documents named alike. -/
def stDup : AppState := ⟨[⟨"a", "1"⟩, ⟨"b", "2"⟩, ⟨"a", "3"⟩], [], "", false, none⟩

/-! ### String helpers -/

theorem intercalate_go_append (s : String) :
    ∀ (l : List String) (a b : String),
      String.intercalate.go (a ++ b) s l = a ++ String.intercalate.go b s l := by
  intro l
  induction l with
  | nil => intro a b; rfl
  | cons c cs ih =>
    intro a b
    show String.intercalate.go (a ++ b ++ s ++ c) s cs =
      a ++ String.intercalate.go (b ++ s ++ c) s cs
    rw [String.append_assoc a b s, String.append_assoc a (b ++ s) c]
    exact ih a ((b ++ s) ++ c)

theorem intercalate_cons_cons (s a b : String) (l : List String) :
    String.intercalate s (a :: b :: l) = a ++ s ++ String.intercalate s (b :: l) := by
  show String.intercalate.go (a ++ s ++ b) s l = a ++ s ++ String.intercalate.go b s l
  exact intercalate_go_append s l (a ++ s) b

theorem join_cons (a : String) (l : List String) :
    String.join (a :: l) = a ++ String.join l :=
  String.ext (by simp)

/-! ### In-order substring containment -/

theorem containsInOrder_prepend (u s : String) {ps : List String}
    (h : ContainsInOrder s ps) : ContainsInOrder (u ++ s) ps := by
  cases ps with
  | nil => exact trivial
  | cons p ps =>
    obtain ⟨l, r, heq, hrest⟩ := h
    exact ⟨u ++ l, r, by rw [heq]; simp [String.append_assoc], hrest⟩

theorem containsInOrder_cons (p r : String) {ps : List String}
    (h : ContainsInOrder r ps) : ContainsInOrder (p ++ r) (p :: ps) :=
  ⟨"", r, by rw [String.empty_append], h⟩

theorem containsInOrder_two (pre mid post rest nm ct : String) {ks : List String}
    (h : ContainsInOrder rest ks) :
    ContainsInOrder (pre ++ nm ++ mid ++ ct ++ post ++ rest) (nm :: ct :: ks) := by
  refine ⟨pre, mid ++ (ct ++ (post ++ rest)), by simp [String.append_assoc], mid,
    post ++ rest, by simp [String.append_assoc], containsInOrder_prepend post rest h⟩

theorem containsInOrder_context (documents : List DocumentFile) (rest : String)
    {ks : List String} (h : ContainsInOrder rest ks) :
    ContainsInOrder (documentsContext documents ++ rest) (docKeys documents ++ ks) := by
  induction documents with
  | nil =>
    show ContainsInOrder ("" ++ rest) ks
    rw [String.empty_append]; exact h
  | cons d ds ih =>
    cases ds with
    | nil =>
      show ContainsInOrder
        (("\n---\nDocument: " ++ d.name ++ "\nContent:\n" ++ d.content ++ "\n---\n  ") ++ rest)
        (d.name :: d.content :: ks)
      have := containsInOrder_two "\n---\nDocument: " "\nContent:\n" "\n---\n  " rest
        d.name d.content h
      simpa [String.append_assoc] using this
    | cons e es =>
      have hdc : documentsContext (d :: e :: es) =
          ("\n---\nDocument: " ++ d.name ++ "\nContent:\n" ++ d.content ++ "\n---\n  ") ++
            "\n" ++ documentsContext (e :: es) :=
        intercalate_cons_cons "\n" _ _ _
      have := containsInOrder_two "\n---\nDocument: " "\nContent:\n" ("\n---\n  " ++ "\n")
        (documentsContext (e :: es) ++ rest) d.name d.content ih
      show ContainsInOrder (documentsContext (d :: e :: es) ++ rest)
        (d.name :: d.content :: (docKeys (e :: es) ++ ks))
      rw [hdc]
      simpa [String.append_assoc] using this

/-! ### Decimal representations of `Date.now()` readings -/

theorem digitVal_digitChar (d : Nat) (h : d < 10) : digitVal (Nat.digitChar d) = d := by
  interval_cases d <;> rfl

theorem digitsVal_append_single (l : List Char) (c : Char) :
    digitsVal (l ++ [c]) = 10 * digitsVal l + digitVal c := by
  simp [digitsVal, List.foldl_append]

theorem digitsVal_decDigits (n : Nat) : digitsVal (decDigits n) = n := by
  induction n using Nat.strong_induction_on with
  | _ n ih =>
    rw [decDigits]
    split
    · rename_i h
      simp [digitsVal, digitVal_digitChar n h]
    · rename_i h
      rw [digitsVal_append_single,
        ih (n / 10) (Nat.div_lt_self (by omega) (by omega)),
        digitVal_digitChar (n % 10) (Nat.mod_lt n (by omega))]
      omega

theorem toDigitsCore_eq_decDigits :
    ∀ (fuel n : Nat) (ds : List Char), n < fuel →
      Nat.toDigitsCore 10 fuel n ds = decDigits n ++ ds := by
  intro fuel
  induction fuel with
  | zero => intro n ds h; exact absurd h (Nat.not_lt_zero n)
  | succ fuel ih =>
    intro n ds h
    show (if n / 10 = 0 then Nat.digitChar (n % 10) :: ds
          else Nat.toDigitsCore 10 fuel (n / 10) (Nat.digitChar (n % 10) :: ds)) =
      decDigits n ++ ds
    by_cases h0 : n / 10 = 0
    · have hn : n < 10 := by omega
      rw [if_pos h0, decDigits, dif_pos hn, Nat.mod_eq_of_lt hn]
      rfl
    · have hdiv : n / 10 < fuel := by
        have := Nat.div_lt_self (show 0 < n by omega) (show 1 < 10 by omega)
        omega
      rw [if_neg h0, ih (n / 10) _ hdiv]
      conv_rhs => rw [decDigits]
      rw [dif_neg (show ¬ n < 10 by omega)]
      simp

theorem toString_nat_inj {m n : Nat} (h : toString m = toString n) : m = n := by
  have hd : Nat.toDigits 10 m = Nat.toDigits 10 n := congrArg String.data h
  have hm := toDigitsCore_eq_decDigits (m + 1) m [] (Nat.lt_succ_self m)
  have hn := toDigitsCore_eq_decDigits (n + 1) n [] (Nat.lt_succ_self n)
  have h2 : decDigits m = decDigits n := by
    have : Nat.toDigitsCore 10 (m + 1) m [] = Nat.toDigitsCore 10 (n + 1) n [] := hd
    rw [hm, hn, List.append_nil, List.append_nil] at this
    exact this
  calc m = digitsVal (decDigits m) := (digitsVal_decDigits m).symm
    _ = digitsVal (decDigits n) := by rw [h2]
    _ = n := digitsVal_decDigits n

/-- Claim C6: for every question and every document list, the composed
prompt contains, as substrings, each document's name and full text in
document order, followed by the literal question string. -/
theorem composedPromptContainsDocsThenQuestion (question : String)
    (documents : List DocumentFile) :
    ContainsInOrder (userPrompt question documents) (docKeys documents ++ [question]) := by
  have hq : ContainsInOrder
      (("\n\nBased on the document(s) provided, answer the following question.\n\nUSER QUESTION:\n" :
          String) ++ (question ++ "\n")) [question] :=
    ⟨"\n\nBased on the document(s) provided, answer the following question.\n\nUSER QUESTION:\n",
      "\n", by simp [String.append_assoc], trivial⟩
  have hctx := containsInOrder_context documents _ hq
  have hall := containsInOrder_prepend "\nCONTEXT FROM DOCUMENTS:\n" _ hctx
  simpa [userPrompt, String.append_assoc] using hall

/-! ### PDF page structure -/

theorem pdfFullText_cons (p : List String) (ps : List (List String)) :
    pdfFullText (p :: ps) = (pageText p ++ "\n\n") ++ pdfFullText ps := by
  rw [pdfFullText, List.map_cons, join_cons]
  rfl

theorem pdfFullText_eq_spec (pages : List (List String)) (h : pages ≠ []) :
    pdfFullText pages = pdfPagesJoinedSpec pages ++ "\n\n" := by
  induction pages with
  | nil => cases h rfl
  | cons p ps ih =>
    rw [pdfFullText_cons]
    cases ps with
    | nil =>
      show (pageText p ++ "\n\n") ++ "" = pageText p ++ "\n\n"
      exact String.append_empty _
    | cons q qs =>
      rw [ih (by simp)]
      have hspec : pdfPagesJoinedSpec (p :: q :: qs) =
          pageText p ++ "\n\n" ++ pdfPagesJoinedSpec (q :: qs) :=
        intercalate_cons_cons "\n\n" (pageText p) (pageText q) (qs.map pageText)
      rw [hspec]
      simp [String.append_assoc]

theorem pdfFullText_containsPages (pages : List (List String)) :
    ContainsInOrder (pdfFullText pages) (pages.map pageText) := by
  induction pages with
  | nil => exact trivial
  | cons p ps ih =>
    rw [pdfFullText_cons, List.map_cons, String.append_assoc]
    exact containsInOrder_cons _ _ (containsInOrder_prepend "\n\n" _ ih)

/-- Claim C4 (amended): extracting an `N`-page PDF joins each page's tokens
by a single space and terminates every page's text — the last included —
with two newlines, so the result is the spec's page join followed by one
trailing separator, and it presents the `N` page texts in page order. -/
theorem pdfExtractionPageStructure (name : String) (pages : List (List String))
    (h : pages ≠ []) :
    extractContent ⟨name, FilePayload.pdfPages pages⟩ =
      some (pdfPagesJoinedSpec pages ++ "\n\n") ∧
    ContainsInOrder (pdfFullText pages) (pages.map pageText) :=
  ⟨congrArg some (pdfFullText_eq_spec pages h), pdfFullText_containsPages pages⟩

/-- Witness for C4 (amended) at a concrete one-page PDF. -/
theorem pdfExtractionPageStructure_witness :
    ([["a"]] : List (List String)) ≠ [] ∧
    (extractContent ⟨"a.pdf", FilePayload.pdfPages [["a"]]⟩ =
      some (pdfPagesJoinedSpec [["a"]] ++ "\n\n") ∧
    ContainsInOrder (pdfFullText [["a"]]) ([["a"]].map pageText)) :=
  ⟨by decide, pdfExtractionPageStructure "a.pdf" [["a"]] (by decide)⟩

/-- Counterexample to C4 as stated: a one-page PDF extracts to the page
text followed by two newlines, which differs from the pages joined by two
newlines (the join of a single page has no newline at all). -/
theorem pdfTrailingNewlinesCounterexample :
    extractContent ⟨"one.pdf", FilePayload.pdfPages [["hello"]]⟩ = some "hello\n\n" ∧
    pdfPagesJoinedSpec [["hello"]] = "hello" ∧
    ("hello\n\n" : String) ≠ "hello" := by
  refine ⟨rfl, rfl, by decide⟩

/-! ### Upload batches -/

theorem range_index_filterMap {α : Type} (l : List α) :
    (List.range l.length).filterMap (fun i => l[i]?) = l := by
  induction l with
  | nil => rfl
  | cons a l ih =>
    rw [List.length_cons, List.range_succ_eq_map, List.filterMap_cons]
    simp only [List.getElem?_cons_zero, List.filterMap_map]
    have hcomp : ((fun i => (a :: l)[i]?) ∘ Nat.succ) = fun i => l[i]? := by
      funext i
      simp
    rw [hcomp, ih]

/-- Claim C1: if any file's extraction fails, the whole batch is rejected —
no document is appended, the user-visible read error is set, and the
documents of prior successful batches are left untouched. -/
theorem batchFailureAllOrNothing (st : AppState) (files : List UFile) (order : List Nat)
    (h : ∃ f, f ∈ files ∧ extractContent f = none) :
    handleFileChange st files order = { st with error := some readErrorMessage } := by
  obtain ⟨f, hf, hev⟩ := h
  have hall : ¬ (files.all (fun f => (extractContent f).isSome) = true) := by
    intro hforall
    rw [List.all_eq_true] at hforall
    have := hforall f hf
    rw [hev] at this
    exact absurd this (by simp)
  unfold handleFileChange
  rw [if_neg hall]

/-- Witness for C1: a two-file batch whose second file is corrupt adds
nothing and surfaces the read error. -/
theorem batchFailureAllOrNothing_witness :
    (∃ f, f ∈ [fileA, ⟨"c.pdf", FilePayload.corrupt⟩] ∧ extractContent f = none) ∧
    handleFileChange stEmpty [fileA, ⟨"c.pdf", FilePayload.corrupt⟩] [0, 1] =
      { stEmpty with error := some readErrorMessage } :=
  ⟨by decide, batchFailureAllOrNothing stEmpty _ _ (by decide)⟩

/-- Claim C2 (amended): when every task of a batch succeeds, the batch is
appended to the document set only after all tasks resolve, in
task-completion order: the appended documents are a permutation of the
selection-order documents, and they equal the selection-order documents
exactly when the tasks complete in selection order. -/
theorem batchAppendsInCompletionOrder (st : AppState) (files : List UFile)
    (order : List Nat) (hperm : order.Perm (List.range files.length))
    (hok : files.all (fun f => (extractContent f).isSome) = true) :
    handleFileChange st files order =
      { st with documents := st.documents ++ batchDocs files order } ∧
    (batchDocs files order).Perm (files.filterMap fileDoc) ∧
    batchDocs files (List.range files.length) = files.filterMap fileDoc := by
  have hsel : batchDocs files (List.range files.length) = files.filterMap fileDoc := by
    rw [batchDocs, range_index_filterMap]
  refine ⟨?_, ?_, hsel⟩
  · unfold handleFileChange
    rw [if_pos hok]
  · have h1 := (hperm.filterMap (fun i => files[i]?)).filterMap fileDoc
    rw [show ((List.range files.length).filterMap (fun i => files[i]?)).filterMap fileDoc =
        batchDocs files (List.range files.length) from rfl, hsel] at h1
    exact h1

/-- Witness for C2 (amended): a two-file batch completing in reverse order
is appended as a permutation of the selection-order documents. -/
theorem batchAppendsInCompletionOrder_witness :
    ([1, 0] : List Nat).Perm (List.range [fileA, fileB].length) ∧
    ([fileA, fileB].all (fun f => (extractContent f).isSome) = true) ∧
    (handleFileChange stEmpty [fileA, fileB] [1, 0] =
      { stEmpty with documents := stEmpty.documents ++ batchDocs [fileA, fileB] [1, 0] } ∧
    (batchDocs [fileA, fileB] [1, 0]).Perm ([fileA, fileB].filterMap fileDoc) ∧
    batchDocs [fileA, fileB] (List.range [fileA, fileB].length) =
      [fileA, fileB].filterMap fileDoc) :=
  ⟨by decide, by decide, batchAppendsInCompletionOrder stEmpty _ _ (by decide) (by decide)⟩

/-- Counterexample to C2 as stated: both files succeed, but a batch whose
second task completes first is appended in completion order, not in
file-selection order. -/
theorem selectionOrderNotPreserved :
    ([1, 0] : List Nat).Perm (List.range 2) ∧
    (handleFileChange stEmpty [fileA, fileB] [1, 0]).documents =
      [⟨"b.txt", "B"⟩, ⟨"a.txt", "A"⟩] ∧
    (handleFileChange stEmpty [fileA, fileB] [1, 0]).documents ≠
      stEmpty.documents ++ [⟨"a.txt", "A"⟩, ⟨"b.txt", "B"⟩] := by
  refine ⟨by decide, by decide, by decide⟩

/-! ### Submission validation and pending requests -/

/-- Claim C3 (amended): a submission whose question is empty or
whitespace-only is dropped silently — nothing changes and no call is made —
while a non-empty question with an empty document set is rejected with the
instructive upload-first message; in both cases the transcript is unchanged
and the composer and client are never reached. -/
theorem submissionValidation (st : AppState) (query : String) (now1 now2 : Nat)
    (outcome : ServiceOutcome)
    (h : jsTrim query = "" ∨ (st.isLoading = false ∧ st.documents = [])) :
    handleSubmit st query now1 now2 outcome =
      (if jsTrim query = "" then st else { st with error := some uploadFirstMessage },
        false) := by
  by_cases hq : jsTrim query = ""
  · simp [handleSubmit, hq]
  · rcases h with h | ⟨hl, hd⟩
    · exact absurd h hq
    · simp [handleSubmit, hq, hl, hd]

/-- Witness for C3 (amended) at an empty question over an empty document set. -/
theorem submissionValidation_witness :
    (jsTrim "" = "" ∨ (stEmpty.isLoading = false ∧ stEmpty.documents = [])) ∧
    handleSubmit stEmpty "" 5 6 (ServiceOutcome.success "ans") =
      (if jsTrim "" = "" then stEmpty
        else { stEmpty with error := some uploadFirstMessage }, false) :=
  ⟨Or.inl rfl, submissionValidation stEmpty "" 5 6 (ServiceOutcome.success "ans") (Or.inl rfl)⟩

/-- Counterexample to C3 as stated: a whitespace-only question over a
non-empty document set is dropped with no error message surfaced — the
state comes back unchanged, still carrying no error. -/
theorem emptyQuestionRejectedSilently :
    handleSubmit stReady "   " 5 6 (ServiceOutcome.success "ans") = (stReady, false) ∧
    stReady.error = none ∧ stReady.documents ≠ [] := by
  refine ⟨by decide, rfl, by decide⟩

/-- Claim C5: while a request is in flight, submitting is a no-op — the
state is unchanged and no second call is issued until the first resolves. -/
theorem pendingSubmissionIsNoOp (st : AppState) (query : String) (now1 now2 : Nat)
    (outcome : ServiceOutcome) (h : st.isLoading = true) :
    handleSubmit st query now1 now2 outcome = (st, false) := by
  simp [handleSubmit, h]

/-- Witness for C5 at a state with a request in flight. -/
theorem pendingSubmissionIsNoOp_witness :
    stPending.isLoading = true ∧
    handleSubmit stPending "another question" 7 8 (ServiceOutcome.success "late") =
      (stPending, false) :=
  ⟨rfl, pendingSubmissionIsNoOp stPending "another question" 7 8
    (ServiceOutcome.success "late") rfl⟩

/-- Claim C10: when the service call of a submission fails, the user
message appended at submission time stays in the transcript, no assistant
message is appended, the error slot takes the thrown message, the document
set is unchanged, and the pending flag is cleared. -/
theorem failedCallPreservesUserMessage (st : AppState) (query msg : String) (n1 n2 : Nat)
    (hq : jsTrim query ≠ "") (hl : st.isLoading = false) (hd : st.documents ≠ []) :
    handleSubmit st query n1 n2 (ServiceOutcome.failure msg) =
      ({ st with
           messages := st.messages ++ [⟨toString n1, Sender.user, query⟩]
           error := some msg
           isLoading := false
           userInput := "" }, true) := by
  have hlen : ¬ st.documents.length = 0 := by
    simpa [List.length_eq_zero] using hd
  simp [handleSubmit, hq, hl, hlen]

/-- Witness for C10 at a concrete failing submission. -/
theorem failedCallPreservesUserMessage_witness :
    (jsTrim "hi" ≠ "" ∧ stReady.isLoading = false ∧ stReady.documents ≠ []) ∧
    handleSubmit stReady "hi" 7 9 (ServiceOutcome.failure "boom") =
      ({ stReady with
           messages := stReady.messages ++ [⟨toString 7, Sender.user, "hi"⟩]
           error := some "boom"
           isLoading := false
           userInput := "" }, true) :=
  ⟨⟨by decide, rfl, by decide⟩,
    failedCallPreservesUserMessage stReady "hi" "boom" 7 9 (by decide) rfl (by decide)⟩

/-! ### Message identifiers -/

/-- Claim C8 (amended): within a single successful submission the user
message id (the submit-time clock reading, printed in decimal) and the
assistant message id (the settle-time reading plus one) are distinct and
numerically increasing; across submissions the code does not guarantee
uniqueness. -/
theorem messageIdsWithinSubmission (st : AppState) (query answer : String) (n1 n2 : Nat)
    (hq : jsTrim query ≠ "") (hl : st.isLoading = false) (hd : st.documents ≠ [])
    (hclock : n1 ≤ n2) :
    (handleSubmit st query n1 n2 (ServiceOutcome.success answer)).1.messages =
      st.messages ++ [⟨toString n1, Sender.user, query⟩,
        ⟨toString (n2 + 1), Sender.ai, answer⟩] ∧
    toString n1 ≠ toString (n2 + 1) ∧ n1 < n2 + 1 := by
  refine ⟨?_, fun he => by have := toString_nat_inj he; omega, by omega⟩
  have hlen : ¬ st.documents.length = 0 := by
    simpa [List.length_eq_zero] using hd
  simp [handleSubmit, hq, hl, hlen]

/-- Witness for C8 (amended) at a concrete successful submission. -/
theorem messageIdsWithinSubmission_witness :
    (jsTrim "q" ≠ "" ∧ stReady.isLoading = false ∧ stReady.documents ≠ [] ∧
      (1000 : Nat) ≤ 1000) ∧
    ((handleSubmit stReady "q" 1000 1000 (ServiceOutcome.success "a")).1.messages =
      stReady.messages ++ [⟨toString 1000, Sender.user, "q"⟩,
        ⟨toString (1000 + 1), Sender.ai, "a"⟩] ∧
    toString 1000 ≠ toString (1000 + 1) ∧ (1000 : Nat) < 1000 + 1) :=
  ⟨⟨by decide, rfl, by decide, by decide⟩,
    messageIdsWithinSubmission stReady "q" "a" 1000 1000 (by decide) rfl (by decide)
      (by decide)⟩

/-- Counterexample to C8 as stated: two successful submissions under a
valid, monotone clock — the answer settling in the same millisecond as its
submission, the next question sent one millisecond later — produce the id
sequence `1000, 1001, 1001, 1002`, which repeats an id, so the transcript
ids are neither unique nor strictly increasing. -/
theorem duplicateMessageIdsAcrossSubmissions :
    ((runSession stReady
        [⟨"q1", 1000, 1000, ServiceOutcome.success "a1"⟩,
         ⟨"q2", 1001, 1001, ServiceOutcome.success "a2"⟩]).messages.map ChatMessage.id) =
      ["1000", "1001", "1001", "1002"] ∧
    ¬ (["1000", "1001", "1001", "1002"] : List String).Nodup := by
  refine ⟨by decide, by decide⟩

/-! ### The answer-service client -/

/-- Claim C7: a call with no configured credential fails immediately with
the configuration error and the transport is never invoked. -/
theorem missingKeyNoNetworkCall (apiKey : Option String) (question : String)
    (documents : List DocumentFile) (net : String → NetOutcome) (h : apiKey = none) :
    askAboutDocuments apiKey question documents net =
      (Except.error apiKeyErrorMessage, false) := by
  subst h
  rfl

/-- Witness for C7 at a concrete call with an absent credential. -/
theorem missingKeyNoNetworkCall_witness :
    askAboutDocuments none "q" [] (fun _ => NetOutcome.ok "a") =
      (Except.error apiKeyErrorMessage, false) :=
  missingKeyNoNetworkCall none "q" [] (fun _ => NetOutcome.ok "a") rfl

/-! ### Removal by name -/

theorem filter_ne_countP (l : List DocumentFile) (docName : String) :
    (l.filter (fun d => d.name != docName)).countP (fun d => d.name == docName) = 0 := by
  induction l with
  | nil => rfl
  | cons d l ih =>
    by_cases hd : d.name = docName
    · simp [List.filter_cons, hd, ih]
    · simp [List.filter_cons, List.countP_cons, hd, ih]

theorem filter_ne_other (l : List DocumentFile) (docName other : String)
    (h : other ≠ docName) :
    (l.filter (fun d => d.name != docName)).filter (fun d => d.name == other) =
      l.filter (fun d => d.name == other) := by
  induction l with
  | nil => rfl
  | cons d l ih =>
    by_cases hd : d.name = docName
    · simp [List.filter_cons, hd, Ne.symm h, ih]
    · simp [List.filter_cons, hd, ih]

/-- Claim C9: removing a document by name removes every document bearing
that name — duplicates included — while for any other name the subsequence
of documents bearing it survives unchanged and in order; the remaining set
is a subsequence of the original. -/
theorem removeDocumentRemovesAllByName (st : AppState) (docName other : String)
    (h : other ≠ docName) :
    (removeDocument st docName).documents.countP (fun d => d.name == docName) = 0 ∧
    List.Sublist (removeDocument st docName).documents st.documents ∧
    (removeDocument st docName).documents.filter (fun d => d.name == other) =
      st.documents.filter (fun d => d.name == other) :=
  ⟨filter_ne_countP st.documents docName, List.filter_sublist _,
    filter_ne_other st.documents docName other h⟩

/-- Witness for C9 at a set holding two documents named alike. -/
theorem removeDocumentRemovesAllByName_witness :
    (("b" : String) ≠ "a") ∧
    ((removeDocument stDup "a").documents.countP (fun d => d.name == "a") = 0 ∧
    List.Sublist (removeDocument stDup "a").documents stDup.documents ∧
    (removeDocument stDup "a").documents.filter (fun d => d.name == "b") =
      stDup.documents.filter (fun d => d.name == "b")) :=
  ⟨by decide, removeDocumentRemovesAllByName stDup "a" "b" (by decide)⟩

end DocQA
